import Mathlib

/-
Verification development for the FORGE task-evaluation engine.

Shallow embedding of the grading pipeline:
- failure-rule registry (src/lib/rules/registry.ts)
- parsing gate (model-output parsing layer)
- static evaluator and final evaluator (src/lib/eval/static-eval.ts)
- runtime evaluator (runtime-eval layer)
- sandbox runner (src/lib/runtime/sandbox-runner.ts)
- pipeline orchestrator runTask (src/lib/exec.ts)

JavaScript numbers are modelled by the rationals; JS strings by Lean strings
with explicit models of the string primitives used by the code (includes,
startsWith, endsWith, toLowerCase, trim).  Dynamically typed JSON values are
modelled by the inductive type JsValue.  Exceptions are modelled by Except;
external effects (model calls, the filesystem, the browser, JSON.parse, the
lint collaborator) are supplied as explicit environment records.
-/

namespace Forge

/- ===================== JS string primitive models ===================== -/

def isWsChar (c : Char) : Bool :=
  c == ' ' || c == '\t' || c == '\n' || c == '\r'

/-- Model of testing that the character list p is an initial segment of s. -/
def charsLeadWith : List Char → List Char → Bool
  | [], _ => true
  | _ :: _, [] => false
  | a :: as, b :: bs => a == b && charsLeadWith as bs

/-- Model of JS String.prototype.includes (substring containment). -/
def charsContain : List Char → List Char → Bool
  | [], needle => needle.isEmpty
  | c :: t, needle => charsLeadWith needle (c :: t) || charsContain t needle

def strIncludes (hay needle : String) : Bool :=
  charsContain hay.data needle.data

def strStartsWith (s p : String) : Bool :=
  charsLeadWith p.data s.data

def strEndsWith (s p : String) : Bool :=
  charsLeadWith p.data.reverse s.data.reverse

def strToLower (s : String) : String :=
  ⟨s.data.map Char.toLower⟩

/-- Model of JS String.prototype.trim (ASCII whitespace suffices here). -/
def strTrim (s : String) : String :=
  ⟨((s.data.dropWhile isWsChar).reverse.dropWhile isWsChar).reverse⟩

def strLen (s : String) : Nat :=
  s.data.length

def strJoin (sep : String) : List String → String
  | [] => ""
  | [x] => x
  | x :: xs => x ++ sep ++ strJoin sep xs

/- ===================== Dynamic (JSON) value model ===================== -/

inductive JsValue where
  | jnull
  | jbool (b : Bool)
  | jnum (q : ℚ)
  | jstr (s : String)
  | jarr (elems : List JsValue)
  | jobj (fields : List (String × JsValue))

/-- JS truthiness of a value. -/
def jsTruthy : JsValue → Bool
  | .jnull => false
  | .jbool b => b
  | .jnum q => !(q == 0)
  | .jstr s => !(s == "")
  | .jarr _ => true
  | .jobj _ => true

/-- Model of (typeof v === 'object'); note typeof null is 'object' in JS. -/
def jsTypeofObject : JsValue → Bool
  | .jnull => true
  | .jarr _ => true
  | .jobj _ => true
  | _ => false

def jsIsString : JsValue → Bool
  | .jstr _ => true
  | _ => false

/-- Property access v.k; undefined (none) on non-objects. -/
def jsGetField (v : JsValue) (k : String) : Option JsValue :=
  match v with
  | .jobj fs => (fs.find? (fun p => p.1 == k)).map (·.2)
  | _ => none

/-- Model of Object.entries-style enumeration used by the code. -/
def jsObjectEntries : JsValue → List (String × JsValue)
  | .jobj fs => fs
  | .jarr xs => (xs.enum).map (fun p => (toString p.1, p.2))
  | .jstr s => (s.data.enum).map (fun p => (toString p.1, JsValue.jstr (String.mk [p.2])))
  | _ => []

/-- Model of Object.keys; none models the TypeError thrown on null. -/
def jsObjectKeysE (v : JsValue) : Option (List String) :=
  match v with
  | .jnull => none
  | v => some ((jsObjectEntries v).map (·.1))

/-- Model of Object.values. -/
def jsObjectValues (v : JsValue) : List JsValue :=
  (jsObjectEntries v).map (·.2)

/-- SameValueZero equality as observed on freshly parsed JSON values:
primitives compare by value; two distinct parsed objects/arrays are distinct
references and never compare equal in a JS Set. -/
def jsSetEq : JsValue → JsValue → Bool
  | .jnull, .jnull => true
  | .jbool a, .jbool b => a == b
  | .jnum a, .jnum b => a == b
  | .jstr a, .jstr b => a == b
  | _, _ => false

def jsSetInsert (seen : List JsValue) (v : JsValue) : List JsValue :=
  match v with
  | .jarr _ => seen ++ [v]
  | .jobj _ => seen ++ [v]
  | _ => if seen.any (fun w => jsSetEq w v) then seen else seen ++ [v]

/-- Size of (new Set(vs)) for a list of freshly parsed JSON values. -/
def jsSetSize (vs : List JsValue) : Nat :=
  (vs.foldl jsSetInsert []).length

/- ===================== Failure registry ===================== -/

structure FailureDefinition where
  ruleId : String
  layer : String
  category : String
  severity : String
  message : String
deriving DecidableEq, Repr

def FD_RUNTIME_CRASH : FailureDefinition :=
  { ruleId := "runtime/crash", layer := "L5/BrowserRuntime", category := "runtime",
    severity := "critical", message := "Browser page crashed or encountered a fatal error" }

def FD_RUNTIME_CONSOLE : FailureDefinition :=
  { ruleId := "runtime/console", layer := "L5/BrowserRuntime", category := "runtime",
    severity := "error", message := "Console error detected" }

def FD_RUNTIME_NETWORK : FailureDefinition :=
  { ruleId := "runtime/network", layer := "L5/BrowserRuntime", category := "runtime",
    severity := "error", message := "Critical network resource failed to load" }

def FD_RUNTIME_TIMEOUT : FailureDefinition :=
  { ruleId := "runtime/timeout", layer := "L5/BrowserRuntime", category := "runtime",
    severity := "error", message := "Execution timed out" }

def FD_RUNTIME_MANIFEST_MISMATCH : FailureDefinition :=
  { ruleId := "runtime/manifest-mismatch", layer := "L5/BrowserRuntime", category := "runtime",
    severity := "error", message := "Runtime artifacts do not match sandbox manifest" }

def FD_RUNTIME_EXTERNAL_ACCESS : FailureDefinition :=
  { ruleId := "runtime/external-access", layer := "L1/Warnings", category := "runtime",
    severity := "warning", message := "External resource accessed" }

def FD_PARSE_INVALID_JSON : FailureDefinition :=
  { ruleId := "parse/json", layer := "L4/Parse", category := "parse",
    severity := "error", message := "File includes invalid JSON" }

def FD_PARSE_MISSING_TREE : FailureDefinition :=
  { ruleId := "parse/tree", layer := "L4/Parse", category := "parse",
    severity := "error", message := "Required file structure missing" }

def FD_PARSE_MISSING_ARTIFACTS : FailureDefinition :=
  { ruleId := "parse/artifacts", layer := "L4/Parse", category := "parse",
    severity := "warning", message := "Required artifact files are empty or missing content" }

def FD_CONNECTIVITY_BROKEN_LINK : FailureDefinition :=
  { ruleId := "connectivity/link", layer := "L3/StaticValidation", category := "connectivity",
    severity := "error", message := "File reference or link is broken" }

def FD_CONNECTIVITY_BROKEN_BINDING : FailureDefinition :=
  { ruleId := "connectivity/binding", layer := "L3/StaticValidation", category := "connectivity",
    severity := "error", message := "HTML/JS data binding mismatch" }

def FD_CONNECTIVITY_SCHEMA_MISMATCH : FailureDefinition :=
  { ruleId := "connectivity/schema", layer := "L3/StaticValidation", category := "connectivity",
    severity := "error", message := "API Schema not correctly implemented in code" }

def FD_CONNECTIVITY_ROUTE_CONSISTENCY : FailureDefinition :=
  { ruleId := "connectivity/route", layer := "L3/StaticValidation", category := "connectivity",
    severity := "error", message := "Route configuration is inconsistent" }

def FD_LINT_ESLINT_A : FailureDefinition :=
  { ruleId := "lint/level-a", layer := "L2/CodeQuality", category := "lint",
    severity := "error", message := "Critical code quality issue (Level A)" }

def FD_LINT_ESLINT_B : FailureDefinition :=
  { ruleId := "lint/level-b", layer := "L2/CodeQuality", category := "lint",
    severity := "warning", message := "Code quality warning (Level B)" }

def FD_LINT_ESLINT_C : FailureDefinition :=
  { ruleId := "lint/level-c", layer := "L2/CodeQuality", category := "lint",
    severity := "info", message := "Style suggestion (Level C)" }

def FD_MODEL_NO_OUTPUT : FailureDefinition :=
  { ruleId := "model/no-output", layer := "L1/Model", category := "model",
    severity := "error", message := "Model failed to generate output" }

def FAILURE_REGISTRY : List (String × FailureDefinition) :=
  [ ("runtime/crash", FD_RUNTIME_CRASH),
    ("runtime/console", FD_RUNTIME_CONSOLE),
    ("runtime/network", FD_RUNTIME_NETWORK),
    ("runtime/timeout", FD_RUNTIME_TIMEOUT),
    ("runtime/manifest-mismatch", FD_RUNTIME_MANIFEST_MISMATCH),
    ("runtime/external-access", FD_RUNTIME_EXTERNAL_ACCESS),
    ("parse/json", FD_PARSE_INVALID_JSON),
    ("parse/tree", FD_PARSE_MISSING_TREE),
    ("parse/artifacts", FD_PARSE_MISSING_ARTIFACTS),
    ("connectivity/link", FD_CONNECTIVITY_BROKEN_LINK),
    ("connectivity/binding", FD_CONNECTIVITY_BROKEN_BINDING),
    ("connectivity/schema", FD_CONNECTIVITY_SCHEMA_MISMATCH),
    ("connectivity/route", FD_CONNECTIVITY_ROUTE_CONSISTENCY),
    ("lint/level-a", FD_LINT_ESLINT_A),
    ("lint/level-b", FD_LINT_ESLINT_B),
    ("lint/level-c", FD_LINT_ESLINT_C),
    ("model/no-output", FD_MODEL_NO_OUTPUT) ]

def registryKeys : List String :=
  FAILURE_REGISTRY.map (·.1)

/-- Lookup that throws (Except.error) on an unknown rule id. -/
def getFailureDef (ruleId : String) : Except String FailureDefinition :=
  match (FAILURE_REGISTRY.find? (fun p => p.1 == ruleId)).map (·.2) with
  | some d => .ok d
  | none => .error ("[FailureRegistry] Unknown Rule ID: " ++ ruleId)

/- ===================== Failure annotations ===================== -/

structure FailureAnnotation where
  ruleId : String
  layer : String
  category : String
  severity : String
  message : String
deriving DecidableEq, Repr

/-- Overlay a contextual message on a registry definition (the spread-style
construction used at every annotation call site). -/
def annotOfDef (d : FailureDefinition) (msg : String) : FailureAnnotation :=
  { ruleId := d.ruleId, layer := d.layer, category := d.category,
    severity := d.severity, message := msg }

/- ===================== Task specification model ===================== -/

inductive Difficulty where
  | XS | S | M | L | XL
deriving DecidableEq, Repr

def DIFFICULTY_WEIGHTS : Difficulty → ℚ
  | .XS => 6/10
  | .S => 8/10
  | .M => 1
  | .L => 12/10
  | .XL => 14/10

structure TreeRules where
  requiredFiles : List String
deriving Repr

structure QuestionSpec where
  treeRules : TreeRules
deriving Repr

structure RuntimeSpec where
  type : Option String := none
  buildCommand : Option String := none
  entry : Option String := none
deriving Repr

structure TaskSpec where
  id : String
  size : Difficulty
  question : QuestionSpec
  runtime : Option RuntimeSpec := none
deriving Repr

/-- Truthiness of an optional string field (undefined or empty is falsy). -/
def strOptTruthy : Option String → Bool
  | none => false
  | some s => !(s == "")

/- ===================== Parsing gate (model-output parsing layer) ===================== -/

/-- One entry of the tree-file list passes when it is a truthy object whose
path field is a string with non-empty trim. -/
def validTreeEntry (f : JsValue) : Bool :=
  (jsTruthy f && jsTypeofObject f) &&
    (match jsGetField f "path" with
     | some (.jstr p) => !((strTrim p).length == 0)
     | _ => false)

/-- validateTreeSpec: accepts both an object with a files array and a bare
array; every entry must have a non-empty string path. -/
def validateTreeSpec (tree : JsValue) : Bool :=
  if !(jsTruthy tree && jsTypeofObject tree) then false
  else
    match (match jsGetField tree "files" with
           | some (.jarr fs) => some fs
           | _ => match tree with
                  | .jarr fs => some fs
                  | _ => none) with
    | none => false
    | some fs => fs.all validTreeEntry

/-- validateArtifactsSpec: artifacts.files must be a truthy object with at
least one key; keys have non-empty trim and all values are strings. -/
def validateArtifactsSpec (artifacts : JsValue) : Bool :=
  if !(jsTruthy artifacts && jsTypeofObject artifacts) then false
  else
    match jsGetField artifacts "files" with
    | none => false
    | some files =>
      if !(jsTruthy files && jsTypeofObject files) then false
      else
        let entries := jsObjectEntries files
        if entries.length == 0 then false
        else entries.all (fun e => !((strTrim e.1).length == 0) && jsIsString e.2)

mutual

/-- Minimal model of JSON.stringify (sufficient for the raw field). -/
def jsonStringify : JsValue → String
  | .jnull => "null"
  | .jbool b => if b then "true" else "false"
  | .jnum q => toString q
  | .jstr s => "\"" ++ s ++ "\""
  | .jarr xs => "[" ++ strJoin "," (jsonStringifyList xs) ++ "]"
  | .jobj fs => "\x7b" ++ strJoin "," (jsonStringifyFields fs) ++ "\x7d"

def jsonStringifyList : List JsValue → List String
  | [] => []
  | x :: xs => jsonStringify x :: jsonStringifyList xs

def jsonStringifyFields : List (String × JsValue) → List String
  | [] => []
  | f :: fs => ("\"" ++ f.1 ++ "\":" ++ jsonStringify f.2) :: jsonStringifyFields fs

end

structure CombinedModelOutput where
  tree : JsValue
  artifacts : JsValue
  raw : String

/-- parseModelOutput: the hard parsing gate; null (none) on any failed
shape validation, otherwise the combined output. -/
def parseModelOutput (tree : JsValue) (artifacts : JsValue) : Option CombinedModelOutput :=
  if !(validateTreeSpec tree) then none
  else if !(validateArtifactsSpec artifacts) then none
  else some
    { tree := tree, artifacts := artifacts,
      raw := jsonStringify (.jobj [("tree", tree), ("artifacts", artifacts)]) }

/- ===================== Static evaluator: regex scanner models ===================== -/

def isQuoteChar (c : Char) : Bool :=
  c == '"' || c == '\''

def isWordCharDash (c : Char) : Bool :=
  c.isAlphanum || c == '_' || c == '-'

def dropWsChars (cs : List Char) : List Char :=
  cs.dropWhile isWsChar

def expectChar (c : Char) : List Char → Option (List Char)
  | [] => none
  | x :: xs => if x == c then some xs else none

def matchLit : List Char → List Char → Option (List Char)
  | [], cs => some cs
  | _ :: _, [] => none
  | l :: ls, c :: cs => if l == c then matchLit ls cs else none

/-- Matches a quoted group (either quote kind) capturing one or more
non-quote characters, as in the character class [^'"]+ of the source. -/
def matchQuotedCapture (cs : List Char) : Option (String × List Char) :=
  match cs with
  | [] => none
  | q :: rest =>
    if isQuoteChar q then
      let cap := rest.takeWhile (fun c => !(isQuoteChar c))
      let rest2 := rest.dropWhile (fun c => !(isQuoteChar c))
      if cap.isEmpty then none
      else
        match rest2 with
        | _ :: rest3 => some (String.mk cap, rest3)
        | [] => none
    else none

/-- One attempted match of a DOM-call pattern such as
getElementById ws ( ws quoted-capture ws ). -/
def matchCallAt (lit : List Char) (cs : List Char) : Option (String × List Char) := do
  let r1 ← matchLit lit cs
  let r3 ← expectChar '(' (dropWsChars r1)
  let (cap, r5) ← matchQuotedCapture (dropWsChars r3)
  let r7 ← expectChar ')' (dropWsChars r5)
  some (cap, r7)

/-- One attempted match of querySelector(All)? ws ( ws quote sigil capture
quote ws ), capturing a word-or-dash group after the # or . sigil. -/
def matchSelectorAt (sigil : Char) (cs : List Char) : Option (String × List Char) := do
  let r1 ← matchLit "querySelector".data cs
  let r1a := match matchLit "All".data r1 with
    | some r => r
    | none => r1
  let r3 ← expectChar '(' (dropWsChars r1a)
  match dropWsChars r3 with
  | [] => none
  | q :: rest =>
    if isQuoteChar q then do
      let rest2 ← expectChar sigil rest
      let cap := rest2.takeWhile isWordCharDash
      let rest3 := rest2.dropWhile isWordCharDash
      if cap.isEmpty then none
      else
        match rest3 with
        | q2 :: rest4 =>
          if isQuoteChar q2 then do
            let r6 ← expectChar ')' (dropWsChars rest4)
            some (String.mk cap, r6)
          else none
        | [] => none
    else none

/-- One attempted match of an HTML attribute pattern: a whitespace character,
the attribute name, ws = ws, then a quoted capture. -/
def matchAttrAt (lit : List Char) (cs : List Char) : Option (String × List Char) :=
  match cs with
  | [] => none
  | w :: rest =>
    if isWsChar w then do
      let r1 ← matchLit lit rest
      let r3 ← expectChar '=' (dropWsChars r1)
      let (cap, r5) ← matchQuotedCapture (dropWsChars r3)
      some (cap, r5)
    else none

/-- matchAll driver: scan left to right, collecting non-overlapping matches.
Fuel equals the input length; every successful match consumes at least one
character, so the fuel never runs out before the input does. -/
def scanAll (m : List Char → Option (String × List Char)) : Nat → List Char → List String
  | 0, _ => []
  | _, [] => []
  | fuel + 1, c :: rest =>
    match m (c :: rest) with
    | some (cap, rest2) => cap :: scanAll m fuel rest2
    | none => scanAll m fuel rest

def extractAll (m : List Char → Option (String × List Char)) (s : String) : List String :=
  scanAll m s.data.length s.data

/-- Insertion-ordered deduplication, the observable content of a JS Set. -/
def dedupKeepFirst (l : List String) : List String :=
  l.foldl (fun acc s => if acc.contains s then acc else acc ++ [s]) []

/-- Model of JS String.prototype.split on a whitespace regex: a leading
separator yields an initial empty piece and a trailing one a final empty
piece. -/
def splitWsGo : Nat → List Char → List Char → List String
  | _, [], acc => [String.mk acc.reverse]
  | 0, _, acc => [String.mk acc.reverse]
  | fuel + 1, c :: rest, acc =>
    if isWsChar c then
      String.mk acc.reverse :: splitWsGo fuel (rest.dropWhile isWsChar) []
    else splitWsGo fuel rest (c :: acc)

def splitWsJS (s : String) : List String :=
  splitWsGo s.data.length s.data []

/- ===================== Static evaluator (static-eval layer) ===================== -/

/-- files[f] for a key known to come from the object itself. -/
def lookupContent (files : List (String × String)) (f : String) : String :=
  (((files.find? (fun e => e.1 == f)).map (·.2)).getD "")

/-- The markup (.html) file names of the artifact map. -/
def frHtmlFiles (files : List (String × String)) : List String :=
  (files.map (·.1)).filter (fun f => strEndsWith f ".html")

/-- The required non-markup files (the reference targets). -/
def frTargets (taskSpec : TaskSpec) : List String :=
  taskSpec.question.treeRules.requiredFiles.filter (fun f => !(strEndsWith f ".html"))

/-- All markup contents joined and lowercased. -/
def frJoined (files : List (String × String)) : String :=
  strToLower (strJoin "\n" ((frHtmlFiles files).map (fun f => lookupContent files f)))

/-- Number of targets textually mentioned by the joined markup. -/
def frFoundCount (files : List (String × String)) (taskSpec : TaskSpec) : Nat :=
  ((frTargets taskSpec).filter
    (fun t => strIncludes (frJoined files) (strToLower t))).length

/-- The targets not mentioned by the joined markup. -/
def frMissing (files : List (String × String)) (taskSpec : TaskSpec) : List String :=
  (frTargets taskSpec).filter (fun t => !(strIncludes (frJoined files) (strToLower t)))

/-- Presence of a generic link/script tag in the joined markup. -/
def frGeneric (files : List (String × String)) : Bool :=
  strIncludes (frJoined files) "<script" || strIncludes (frJoined files) "<link"
    || strIncludes (frJoined files) "href=" || strIncludes (frJoined files) "src="

/-- Connectivity sub-check 1: file reference. -/
def evaluateFileReference (files : List (String × String)) (taskSpec : TaskSpec) :
    ℚ × List FailureAnnotation :=
  if (frHtmlFiles files).isEmpty then
    (0, [annotOfDef FD_CONNECTIVITY_BROKEN_LINK "No HTML files found to reference content"])
  else if (frTargets taskSpec).isEmpty then (1, [])
  else if frFoundCount files taskSpec == (frTargets taskSpec).length then (1, [])
  else
    let score : ℚ := if frFoundCount files taskSpec > 0 then 1/2 else 0
    if score == 0 && frGeneric files then
      (1/2, [{ annotOfDef FD_CONNECTIVITY_BROKEN_LINK
        ("No explicit references to required files found, but generic links exist. Missing: "
          ++ strJoin ", " (frMissing files taskSpec)) with severity := "warning" }])
    else
      (score, [annotOfDef FD_CONNECTIVITY_BROKEN_LINK
        ("Missing references to required files: " ++ strJoin ", " (frMissing files taskSpec))])

/-- Connectivity sub-check 2: script binding. -/
def evaluateScriptBinding (files : List (String × String)) : ℚ × List FailureAnnotation :=
  let fileNames := files.map (·.1)
  let jsFiles := fileNames.filter (fun f => strEndsWith f ".js")
  let htmlFiles := fileNames.filter (fun f => strEndsWith f ".html")
  if jsFiles.isEmpty || htmlFiles.isEmpty then
    if !jsFiles.isEmpty && htmlFiles.isEmpty then
      (0, [annotOfDef FD_CONNECTIVITY_BROKEN_BINDING "JS files exist but no HTML to bind them"])
    else (0, [])
  else
    let jsContent := strJoin "\n" (jsFiles.map (fun f => lookupContent files f))
    let htmlContent := strJoin "\n" (htmlFiles.map (fun f => lookupContent files f))
    let jsIds := dedupKeepFirst
      (extractAll (matchCallAt "getElementById".data) jsContent
        ++ extractAll (matchSelectorAt '#') jsContent)
    let jsClasses := dedupKeepFirst
      (extractAll (matchCallAt "getElementsByClassName".data) jsContent
        ++ extractAll (matchSelectorAt '.') jsContent)
    let htmlIds := dedupKeepFirst (extractAll (matchAttrAt "id".data) htmlContent)
    let htmlClasses := dedupKeepFirst
      ((extractAll (matchAttrAt "class".data) htmlContent).flatMap splitWsJS)
    let hasJsSelectors := !jsIds.isEmpty || !jsClasses.isEmpty
    let hasHtmlElements := !htmlIds.isEmpty || !htmlClasses.isEmpty
    if !hasJsSelectors && !hasHtmlElements then
      (0, [{ annotOfDef FD_CONNECTIVITY_BROKEN_BINDING
        "No DOM selectors found in JS or IDs/Classes in HTML" with severity := "warning" }])
    else
      let matchFound := jsIds.any (fun i => htmlIds.contains i)
        || jsClasses.any (fun c => htmlClasses.contains c)
      let missingBindings :=
        (jsIds.filter (fun i => !(htmlIds.contains i))).map (fun i => "#" ++ i)
          ++ (jsClasses.filter (fun c => !(htmlClasses.contains c))).map (fun c => "." ++ c)
      if matchFound then (1, [])
      else if hasJsSelectors || hasHtmlElements then
        (1/2, [{ annotOfDef FD_CONNECTIVITY_BROKEN_BINDING
          ("DOM bindings mismatch. JS expects: " ++ strJoin ", " (missingBindings.take 3)
            ++ (if missingBindings.length > 3 then "..." else "")) with severity := "warning" }])
      else (0, [])

/-- Connectivity sub-check 3: API schema linkage.  JSON.parse is an
environment primitive supplied as jsonParse (none models a throw). -/
def evaluateApiSchemaLinkage (jsonParse : String → Option JsValue)
    (files : List (String × String)) : ℚ × List FailureAnnotation :=
  match (files.find? (fun e => e.1 == "api.json")).map (·.2) with
  | none => (1, [])
  | some content =>
    if content == "" then (1, [])
    else
      match (do
        let v ← jsonParse content
        jsObjectKeysE v : Option (List String)) with
      | none => (0, [annotOfDef FD_PARSE_INVALID_JSON "api.json is invalid JSON"])
      | some apiKeys =>
        if apiKeys.isEmpty then (1, [])
        else
          let scanContent := strJoin "\n"
            ((files.filter (fun e => !(e.1 == "api.json")
              && (strEndsWith e.1 ".html" || strEndsWith e.1 ".js" || e.1 == "routes.json"))).map (·.2))
          if (strTrim scanContent).length == 0 then
            (0, [annotOfDef FD_CONNECTIVITY_SCHEMA_MISMATCH
              "No code content found to implement API schema"])
          else if apiKeys.any (fun k => strIncludes scanContent k) then (1, [])
          else
            let lowerContent := strToLower scanContent
            if apiKeys.any (fun k => strIncludes lowerContent (strToLower k)) then
              (1/2, [{ annotOfDef FD_CONNECTIVITY_SCHEMA_MISMATCH
                "API keys found but case-mismatched (StrictSchema=0.5)" with severity := "warning" }])
            else
              (0, [annotOfDef FD_CONNECTIVITY_SCHEMA_MISMATCH
                "None of the keys in api.json are referenced in code"])

/-- Connectivity sub-check 4: route consistency. -/
def evaluateRouteConsistency (jsonParse : String → Option JsValue)
    (files : List (String × String)) : ℚ × List FailureAnnotation :=
  match (files.find? (fun e => e.1 == "routes.json")).map (·.2) with
  | none => (0, [])
  | some routesContent =>
    if routesContent == "" then (0, [])
    else
      match jsonParse routesContent with
      | none => (0, [annotOfDef FD_PARSE_INVALID_JSON "routes.json is invalid JSON"])
      | some routes =>
        if !(jsTruthy routes) || !(jsTypeofObject routes)
            || ((jsObjectEntries routes).length == 0) then
          (0, [{ annotOfDef FD_CONNECTIVITY_ROUTE_CONSISTENCY "routes.json is empty"
            with severity := "warning" }])
        else
          let routeValues := jsObjectValues routes
          let nonEmpty := routeValues.all (fun r =>
            match r with
            | .jstr s => !((strTrim s).length == 0)
            | _ => false)
          let hasDuplicates := jsSetSize routeValues < routeValues.length
          if nonEmpty && !hasDuplicates then (1, [])
          else
            (1/2, [{ annotOfDef FD_CONNECTIVITY_ROUTE_CONSISTENCY
              ("routes.json issues: " ++ (if !nonEmpty then "Empty entries. " else "")
                ++ (if hasDuplicates then "Duplicate targets. " else ""))
              with severity := "warning" }])

/-- Model of JS Math.round (round half toward positive infinity). -/
def jsRound (q : ℚ) : ℤ :=
  Rat.floor (q + 1/2)

/-- Model of Number.prototype.toFixed(2) for the non-negative scores here. -/
def toFixed2 (q : ℚ) : String :=
  let n := jsRound (q * 100)
  toString (n / 100) ++ "." ++ (if (n % 100).natAbs < 10 then "0" else "")
    ++ toString (n % 100).natAbs

structure LintError where
  message : String
deriving Repr

/-- Environment of the static evaluator: the JSON.parse primitive and the
outcome of the external lint collaborator (none models a lint run that
threw; only level-A errors feed failure annotations). -/
structure StaticEnv where
  jsonParse : String → Option JsValue
  lintOutcome : Option (List LintError) := none

/-- Per-extension structural sanity of one file. -/
def fileStructureValid (jsonParse : String → Option JsValue) (name content : String) : Bool :=
  if strEndsWith name ".html" then
    strIncludes content "<!DOCTYPE" && strIncludes content "<html" && strIncludes content "<body"
  else if strEndsWith name ".json" then
    (jsonParse content).isSome
  else
    !((strTrim content).length == 0)

structure ConnectivityBreakdown where
  fileReference : ℚ
  scriptBinding : ℚ
  apiSchemaLinkage : ℚ
  routeConsistency : ℚ
deriving DecidableEq, Repr

structure ScoreBreakdown where
  completeness : ℚ
  structureScore : ℚ
  survivability : ℚ
  connectivity : ℚ
  connectivityBreakdown : Option ConnectivityBreakdown := none
  failureAnnotations : List FailureAnnotation := []
deriving DecidableEq, Repr

/-- The tier-gated list of enabled connectivity components. -/
def enabledConnectivity (size : Difficulty) (fr sb api rc : ℚ) : List ℚ :=
  [fr]
  ++ (if size = .S ∨ size = .M ∨ size = .L ∨ size = .XL then [sb] else [])
  ++ (if size = .M ∨ size = .L ∨ size = .XL then [api] else [])
  ++ (if size = .L ∨ size = .XL then [rc] else [])

/-- evaluateStatic: completeness, structure, tier-gated connectivity,
survivability, plus accumulated failure annotations. -/
def evaluateStatic (env : StaticEnv) (files : List (String × String))
    (taskSpec : TaskSpec) : ScoreBreakdown :=
  let fileNames := files.map (·.1)
  let requiredFiles := taskSpec.question.treeRules.requiredFiles
  let allRequiredPresent := requiredFiles.all (fun f => fileNames.contains f)
  let allNonEmpty := requiredFiles.all (fun f =>
    match (files.find? (fun e => e.1 == f)).map (·.2) with
    | some c => !((strTrim c).length == 0)
    | none => false)
  let completeness : ℚ := if allRequiredPresent && allNonEmpty then 1 else 1/2
  let completenessAnns : List FailureAnnotation :=
    if completeness < 1 then
      if !allRequiredPresent then
        [annotOfDef FD_PARSE_MISSING_TREE ("Missing required files: "
          ++ strJoin ", " (requiredFiles.filter (fun f => !(fileNames.contains f))))]
      else if !allNonEmpty then
        [annotOfDef FD_PARSE_MISSING_ARTIFACTS "Some required files are empty"]
      else []
    else []
  let validCount := (files.filter (fun e => fileStructureValid env.jsonParse e.1 e.2)).length
  let structureScore : ℚ :=
    if fileNames.length > 0 then (validCount : ℚ) / (fileNames.length : ℚ) else 0
  let structureAnns : List FailureAnnotation :=
    if structureScore < 1 then
      [annotOfDef FD_PARSE_INVALID_JSON ("Use of malformed files detected (Structure Score: "
        ++ toFixed2 structureScore ++ ")")]
    else []
  let fr := evaluateFileReference files taskSpec
  let sb := evaluateScriptBinding files
  let api := evaluateApiSchemaLinkage env.jsonParse files
  let rc := evaluateRouteConsistency env.jsonParse files
  let connAnns := fr.2 ++ sb.2 ++ api.2 ++ rc.2
  let enabledComponents := enabledConnectivity taskSpec.size fr.1 sb.1 api.1 rc.1
  let connectivity : ℚ :=
    if enabledComponents.length > 0 then
      enabledComponents.sum / (enabledComponents.length : ℚ)
    else 1
  let survivability : ℚ :=
    if completeness = 1 ∧ structureScore ≥ 1/2 ∧ connectivity ≥ 1/2 then 1 else 0
  let jsFiles := fileNames.filter (fun f => strEndsWith f ".js")
  let lintAnns : List FailureAnnotation :=
    if jsFiles.isEmpty then []
    else
      match env.lintOutcome with
      | none => []
      | some levelA => levelA.map (fun err => annotOfDef FD_LINT_ESLINT_A err.message)
  { completeness := completeness, structureScore := structureScore,
    survivability := survivability, connectivity := connectivity,
    connectivityBreakdown := some ⟨fr.1, sb.1, api.1, rc.1⟩,
    failureAnnotations := completenessAnns ++ structureAnns ++ connAnns ++ lintAnns }

/- ===================== Final evaluator (final-eval layer) ===================== -/

/-- Dominance priority of a failure-layer string. -/
def getPriority (layer : String) : Nat :=
  if strStartsWith layer "L5" then 5
  else if strStartsWith layer "L4" then 4
  else if strStartsWith layer "L3" then 3
  else if strStartsWith layer "L2" then 2
  else 1

/-- Failure layer to hard score cap. -/
def getScoreCap (failureLayer : Option String) : ℤ :=
  match failureLayer with
  | none => 100
  | some l =>
    if strStartsWith l "L5" then 30
    else if strStartsWith l "L4" then 50
    else if strStartsWith l "L3" then 70
    else if strStartsWith l "L2" then 85
    else 100

/-- First annotation of maximal priority (stable sort descending, head). -/
def pickDominant (candidates : List FailureAnnotation) : Option FailureAnnotation :=
  candidates.foldl
    (fun best a =>
      match best with
      | none => some a
      | some b => if getPriority a.layer > getPriority b.layer then some a else some b)
    none

/-- Per-annotation penalty of the final evaluator's penalty loop. -/
def annotationPenalty (a : FailureAnnotation) : ℚ :=
  if strStartsWith a.layer "L5" then 15
  else if strStartsWith a.layer "L4" then 20
  else if strStartsWith a.layer "L3" then 0
  else if strStartsWith a.layer "L2" then
    (if a.severity == "error" then 5 else 0) + (if a.severity == "warning" then 2 else 0)
  else 0

def totalPenalty (annotations : List FailureAnnotation) : ℚ :=
  annotations.foldl (fun acc a => acc + annotationPenalty a) 0

/-- Base score in [0,1]: runtime-skipped weights 0.6/0.3/0.1, otherwise
0.4/0.2/0.1/0.3 with the runtime score. -/
def baseScore01 (completeness structureScore survivability : ℚ) (runtimeScore : Option ℚ) : ℚ :=
  match runtimeScore with
  | none => 6/10 * completeness + 3/10 * structureScore + 1/10 * survivability
  | some r => 4/10 * completeness + 2/10 * structureScore + 1/10 * survivability + 3/10 * r

structure FailureMetadata where
  difficulty : Option Difficulty := none
  parseInvalid : Bool := false
  failureAnnotations : List FailureAnnotation := []
deriving Repr

structure FinalEvaluationResult where
  totalScore : ℤ
  failureLayer : Option String
  notes : List String
  errors : List String
  failureAnnotations : List FailureAnnotation
  infrastructureTimeout : Bool := false
deriving DecidableEq, Repr

/-- evaluateFinal: dominant layer, base score, difficulty weight, penalty,
hard cap, clamp and round to an integer total. -/
def evaluateFinal (staticScore : ScoreBreakdown) (runtimeScore : Option ℚ)
    (metadata : FailureMetadata) : FinalEvaluationResult :=
  let difficulty := metadata.difficulty.getD .M
  let weight := DIFFICULTY_WEIGHTS difficulty
  let annotations := metadata.failureAnnotations
  let failureCandidates := annotations.filter
    (fun a => a.severity == "critical" || a.severity == "error")
  let failureLayer : Option String :=
    match pickDominant failureCandidates with
    | some worst => some worst.layer
    | none => if metadata.parseInvalid then some "L4/Parse" else none
  let errs : List String :=
    match pickDominant failureCandidates with
    | some worst => [worst.layer ++ ": " ++ worst.message]
    | none => if metadata.parseInvalid then ["Model output parsing failed (Legacy Fallback)"] else []
  let base100 := baseScore01 staticScore.completeness staticScore.structureScore
      staticScore.survivability runtimeScore * 100
  let weightedScore := base100 * weight
  let penalty := totalPenalty annotations
  let penalizedScore := weightedScore - penalty
  let cap := getScoreCap failureLayer
  let totalScore := max 0 (min cap (jsRound penalizedScore))
  let notes :=
    match failureLayer with
    | none => ["All validation checks passed"]
    | some fl => ["Failure classified as " ++ fl, "Score capped at " ++ toString cap]
  { totalScore := totalScore, failureLayer := failureLayer,
    notes := notes, errors := errs, failureAnnotations := annotations }

/- ===================== Runtime evaluator (runtime-eval layer) ===================== -/

structure SandboxManifest where
  entry : String
  filesMounted : List String
  fileHashes : List (String × String) := []
deriving DecidableEq, Repr

structure RuntimeExternalAccess where
  target : String
deriving DecidableEq, Repr

structure BrowserError where
  type : String
  message : String
  url : Option String := none
deriving DecidableEq, Repr

structure BrowserLog where
  type : String
  message : String
deriving DecidableEq, Repr

structure SandboxResult where
  manifest : Option SandboxManifest := none
  externalAccess : Option (List RuntimeExternalAccess) := none
  logs : List String := []
  success : Bool
  browserErrors : Option (List BrowserError) := none
  browserLogs : Option (List BrowserLog) := none
deriving DecidableEq, Repr

def checkIsInternal (target : String) (internalFiles : List String) : Bool :=
  if !(strStartsWith target "file://") then false
  else internalFiles.any (fun file => strIncludes target file)

/-- The classification criterion under which a browser error is pushed onto
runtimeErrors (and therefore forces score 0): page errors, console errors,
and network failures whose url ends in .js/.html or whose message mentions
.js/.html. -/
def isFatalBrowserError (e : BrowserError) : Bool :=
  if e.type == "pageerror" then true
  else if e.type == "network" then
    (match e.url with
     | some u => strEndsWith u ".js" || strEndsWith u ".html"
     | none => false)
    || strIncludes e.message ".js" || strIncludes e.message ".html"
  else e.type == "console.error"

/-- The classification loop over browser errors, returning the accumulated
runtimeErrors, runtimeWarnings, and failure annotations in source order. -/
def classifyBrowserErrors :
    List BrowserError → List BrowserError × List BrowserLog × List FailureAnnotation
  | [] => ([], [], [])
  | e :: rest =>
    let prev := classifyBrowserErrors rest
    if e.type == "pageerror" then
      (e :: prev.1, prev.2.1, annotOfDef FD_RUNTIME_CRASH e.message :: prev.2.2)
    else if e.type == "network" then
      if (match e.url with
          | some u => strEndsWith u ".js" || strEndsWith u ".html"
          | none => false)
          || strIncludes e.message ".js" || strIncludes e.message ".html" then
        (e :: prev.1, prev.2.1,
          annotOfDef FD_RUNTIME_NETWORK ("Critical Resource Failed: " ++ e.message) :: prev.2.2)
      else
        (prev.1, { type := "console.warn", message := "[Network] " ++ e.message } :: prev.2.1,
          { annotOfDef FD_RUNTIME_NETWORK ("Resource Warning: " ++ e.message)
            with severity := "warning" } :: prev.2.2)
    else if e.type == "console.error" then
      (e :: prev.1, prev.2.1,
        annotOfDef FD_RUNTIME_CONSOLE ("Console Error: " ++ e.message) :: prev.2.2)
    else
      (prev.1, { type := "console.warn", message := "[Unknown Error] " ++ e.message } :: prev.2.1,
        { annotOfDef FD_RUNTIME_CONSOLE ("Runtime Warning: " ++ e.message)
          with severity := "warning" } :: prev.2.2)

structure RuntimeEvalOut where
  score : ℚ
  failureAnnotations : List FailureAnnotation
  runtimeErrors : List BrowserError
  runtimeWarnings : List BrowserLog
deriving DecidableEq, Repr

/-- evaluateRuntime: manifest alignment, external-access audit, browser
error classification, then short-circuit scoring. -/
def evaluateRuntime (sandboxResult : SandboxResult) (taskSpec : TaskSpec) : RuntimeEvalOut :=
  let manifestAnns : List FailureAnnotation :=
    match sandboxResult.manifest with
    | some m =>
      if !(m.entry == "") && !(m.filesMounted.contains m.entry) then
        [annotOfDef FD_RUNTIME_MANIFEST_MISMATCH
          ("Runtime entry point " ++ m.entry ++ " not found in mounted files")]
      else []
    | none => []
  let internalPaths := (sandboxResult.manifest.map (·.filesMounted)).getD []
  let externalAnns : List FailureAnnotation :=
    match sandboxResult.externalAccess with
    | none => []
    | some accesses =>
      accesses.flatMap (fun access =>
        let isFile := strStartsWith access.target "file://"
        let isInternal := checkIsInternal access.target internalPaths
        if isFile && !isInternal then
          [annotOfDef FD_RUNTIME_MANIFEST_MISMATCH
            ("Runtime accessed unmounted file: " ++ access.target)]
        else if !isFile && !isInternal && !(access.target == "about:blank") then
          if !(strStartsWith access.target "data:") then
            [annotOfDef FD_RUNTIME_EXTERNAL_ACCESS
              ("External resource accessed: " ++ access.target)]
          else []
        else [])
  let classified := classifyBrowserErrors (sandboxResult.browserErrors.getD [])
  let runtimeErrors := classified.1
  let warnLogs := (sandboxResult.browserLogs.getD []).filter (fun log => log.type == "console.warn")
  let runtimeWarnings := classified.2.1 ++ warnLogs
  let anns := manifestAnns ++ externalAnns ++ classified.2.2
  if !sandboxResult.success then
    { score := 0,
      failureAnnotations := anns
        ++ [annotOfDef FD_RUNTIME_CRASH "Sandbox Execution Failed (Infrastructure/Timeout)"],
      runtimeErrors := runtimeErrors, runtimeWarnings := runtimeWarnings }
  else if runtimeErrors.length > 0 then
    { score := 0, failureAnnotations := anns,
      runtimeErrors := runtimeErrors, runtimeWarnings := runtimeWarnings }
  else
    { score := 1, failureAnnotations := anns,
      runtimeErrors := runtimeErrors, runtimeWarnings := runtimeWarnings }

/- ===================== Sandbox runner (sandbox-runner layer) ===================== -/

structure BrowserRunResult where
  browserErrors : List BrowserError := []
  browserLogs : List BrowserLog := []
  externalAccess : List RuntimeExternalAccess := []
deriving Repr

/-- Environment of the sandbox runner.  Primitives that can throw in JS are
Except-valued; runCommand never rejects (it resolves an exit code on close
or error), so build/node outcomes are plain integers. -/
structure SandboxEnv where
  scratchDir : Except String String := .ok "/tmp/scratch"
  writeFile : String → String → Except String Unit := fun _ _ => .ok ()
  buildExitCode : Int := 0
  entryExists : Bool := true
  browserOutcome : Except String BrowserRunResult := .ok {}
  nodeExitCode : Int := 0

/-- The synchronous region of the runner guarded by the try block: the
artifact write loop (directory creation and file writes per artifact).
Scratch-directory creation is NOT part of this region: in the source it
runs before the try, inside the Promise executor. -/
def sandboxMaterialize (env : SandboxEnv) (files : List (String × String)) :
    Except String Unit :=
  files.forM (fun pc => env.writeFile pc.1 pc.2)

/-- The async region of the runner (build, runtime dispatch).  Its throws
would escape the outer catch as unhandled rejections, hence the Except
codomain; the body resolves a result on every path. -/
def sandboxAsyncPhase (env : SandboxEnv) (taskSpec : TaskSpec)
    (manifest : Option SandboxManifest) (logs0 : List String) :
    Except String SandboxResult :=
  let runtimeType := taskSpec.runtime.bind (·.type)
  let entryPoint := taskSpec.runtime.bind (·.entry)
  let buildCommand := taskSpec.runtime.bind (·.buildCommand)
  let logs1 :=
    if strOptTruthy buildCommand then
      logs0 ++ ["[Sandbox] Build: " ++ buildCommand.getD ""]
    else logs0
  if strOptTruthy buildCommand && !(env.buildExitCode == 0) then
    .ok { success := false, logs := logs1, browserErrors := some [], browserLogs := some [] }
  else if !(strOptTruthy entryPoint) then
    .ok { success := true, logs := logs1, manifest := manifest }
  else if runtimeType == some "browser" then
    let entry := entryPoint.getD ""
    let html := if strEndsWith entry ".html" then entry else "index.html"
    let logs2 := logs1 ++ ["[Sandbox] Browser Runtime: " ++ html]
    if !env.entryExists then
      .ok { success := false, logs := logs2 ++ ["[Sandbox] Missing browser entry: " ++ html] }
    else
      match env.browserOutcome with
      | .ok result =>
        let logs3 := logs2 ++ ["[Sandbox] Browser completed: "
          ++ toString result.browserErrors.length ++ " errors, "
          ++ toString result.browserLogs.length ++ " logs"]
        .ok { success := result.browserErrors.isEmpty, logs := logs3, manifest := manifest,
              browserErrors := some result.browserErrors,
              browserLogs := some result.browserLogs,
              externalAccess := some result.externalAccess }
      | .error e =>
        .ok { success := false, logs := logs2 ++ ["[Sandbox] Browser crashed: " ++ e] }
  else if runtimeType == some "node" then
    let logs2 := logs1 ++ ["[Sandbox] Node Runtime: " ++ entryPoint.getD "",
      "[Sandbox] Cmd: node -r fs-guard " ++ entryPoint.getD ""]
    .ok { success := env.nodeExitCode == 0, logs := logs2, manifest := manifest }
  else
    .ok { success := false, logs := logs1 ++ ["[Sandbox] Unknown runtime type"] }

/-- runInSandbox: scratch-directory creation (tmp.dirSync) executes inside
the Promise executor before the try block, so a throw there rejects the
returned promise (Except.error); a throw in the write loop is caught and
resolved as a failure result (the source's catch block pushes its log line
twice). -/
def runInSandbox (env : SandboxEnv) (files : List (String × String)) (taskSpec : TaskSpec)
    (manifest : Option SandboxManifest) : Except String SandboxResult :=
  match env.scratchDir with
  | .error e => .error e
  | .ok _ =>
    match sandboxMaterialize env files with
    | .error e =>
      .ok { success := false,
            logs := ["[Sandbox] Internal error: " ++ e, "[Sandbox] Internal error: " ++ e],
            manifest := manifest }
    | .ok _ => sandboxAsyncPhase env taskSpec manifest []

/- ===================== Pipeline orchestrator (exec layer) ===================== -/

structure ModelOut where
  tree : Option JsValue := none
  artifacts : Option JsValue := none

/-- Settlement behaviour of one generation-collaborator call together with
the deadline race configuration for the XL tier. -/
structure PhaseEnv where
  outcome : Except String ModelOut
  deadlinePassed : Bool := false
  deadlineWins : Bool := false

structure CallRes where
  result : Option ModelOut
  timeout : Bool

/-- callWithTimeout: non-XL awaits the call directly; XL first checks the
remaining budget, then races the call against the deadline timer.  A
rejection of the collaborator promise propagates (Except.error). -/
def callWithTimeout (isXL : Bool) (ph : PhaseEnv) : Except String CallRes :=
  if !isXL then
    match ph.outcome with
    | .ok r => .ok { result := some r, timeout := false }
    | .error e => .error e
  else if ph.deadlinePassed then .ok { result := none, timeout := true }
  else if ph.deadlineWins then .ok { result := none, timeout := true }
  else
    match ph.outcome with
    | .ok r => .ok { result := some r, timeout := false }
    | .error e => .error e

structure RunEnv where
  treePhase : PhaseEnv
  filesPhase : PhaseEnv
  staticEnv : StaticEnv
  sandboxEnv : SandboxEnv
  hash : String → String := fun _ => ""

/-- Score-relevant projections of the orchestrator's ExecutionResult. -/
structure ExecView where
  artifactStatusValid : Bool
  runtimeScore : Option ℚ
  sandboxInvoked : Bool
  staticScore : ScoreBreakdown
  finalResult : FinalEvaluationResult
  infrastructureTimeout : Bool
deriving DecidableEq, Repr

def zeroBreakdown : ScoreBreakdown :=
  { completeness := 0, structureScore := 0, survivability := 0, connectivity := 0 }

def invalidParseBreakdown : ScoreBreakdown :=
  { completeness := 1/2, structureScore := 0, survivability := 0, connectivity := 0 }

/-- Runtime score used by the generation-failure early exits:
0 when the task declares a runtime entry or build command, null otherwise. -/
def earlyRuntimeScore (ts : TaskSpec) : Option ℚ :=
  if strOptTruthy (ts.runtime.bind (·.entry)) || strOptTruthy (ts.runtime.bind (·.buildCommand))
  then some 0 else none

/-- The terminal result of the two generation-failure early exits. -/
def earlyExitView (ts : TaskSpec) (timeoutFlag : Bool) : ExecView :=
  let runtimeScore := earlyRuntimeScore ts
  let finalResult0 := evaluateFinal zeroBreakdown runtimeScore {}
  let finalResult :=
    if timeoutFlag then
      { finalResult0 with
        infrastructureTimeout := true
        notes := finalResult0.notes ++ ["Infrastructure Timeout Triggered"] }
    else finalResult0
  { artifactStatusValid := false, runtimeScore := runtimeScore, sandboxInvoked := false,
    staticScore := zeroBreakdown, finalResult := finalResult,
    infrastructureTimeout := timeoutFlag }

def optJsTruthy : Option JsValue → Bool
  | some v => jsTruthy v
  | none => false

/-- Extraction of the validated artifacts' string file map. -/
def extractFiles (artifacts : JsValue) : List (String × String) :=
  match jsGetField artifacts "files" with
  | some fv => (jsObjectEntries fv).filterMap (fun e =>
      match e.2 with
      | .jstr s => some (e.1, s)
      | _ => none)
  | none => []

/-- Phases 4-8 of runTask: parsing gate, manifest generation, static
evaluation, difficulty-gated sandbox + runtime evaluation, final
evaluation. -/
def mainPath (env : RunEnv) (ts : TaskSpec) (tree : JsValue) (artifactsSpec : JsValue) :
    Except String ExecView :=
  let combined := parseModelOutput tree artifactsSpec
  let artifactStatusValid := combined.isSome
  let files :=
    match combined with
    | some c => extractFiles c.artifacts
    | none => []
  let sandboxManifest : Option SandboxManifest :=
    if artifactStatusValid then
      some { entry := (ts.runtime.bind (·.entry)).getD "",
             filesMounted := files.map (·.1),
             fileHashes := files.map (fun e => (e.1, env.hash e.2)) }
    else none
  let staticScore :=
    if artifactStatusValid then evaluateStatic env.staticEnv files ts
    else invalidParseBreakdown
  if (ts.size = .M ∨ ts.size = .L ∨ ts.size = .XL) ∧ artifactStatusValid then
    match runInSandbox env.sandboxEnv files ts sandboxManifest with
    | .error e => .error e
    | .ok sandboxResult =>
      let ro := evaluateRuntime sandboxResult ts
      let runtimeScore : Option ℚ := some ro.score
      let metaAnns :=
        if sandboxResult.browserErrors.isSome || sandboxResult.browserLogs.isSome then []
        else ro.failureAnnotations
      let merged := staticScore.failureAnnotations ++ metaAnns
      let finalResult := evaluateFinal staticScore runtimeScore
        { difficulty := some ts.size, failureAnnotations := merged }
      .ok { artifactStatusValid := artifactStatusValid, runtimeScore := runtimeScore,
            sandboxInvoked := true, staticScore := staticScore, finalResult := finalResult,
            infrastructureTimeout := false }
  else
    let finalResult := evaluateFinal staticScore none
      { difficulty := some ts.size, failureAnnotations := staticScore.failureAnnotations }
    .ok { artifactStatusValid := artifactStatusValid, runtimeScore := none,
          sandboxInvoked := false, staticScore := staticScore, finalResult := finalResult,
          infrastructureTimeout := false }

/-- runTask: tree phase, files phase (each with deadline handling), then the
evaluation pipeline.  A collaborator rejection propagates through the
awaits; missing outputs and timeouts produce early terminal results. -/
def runTask (env : RunEnv) (ts : TaskSpec) : Except String ExecView :=
  match callWithTimeout (ts.size == .XL) env.treePhase with
  | .error e => .error e
  | .ok treeCallResult =>
    let tree : Option JsValue := treeCallResult.result.bind (·.tree)
    if !(optJsTruthy tree) || treeCallResult.timeout then
      .ok (earlyExitView ts treeCallResult.timeout)
    else
      match callWithTimeout (ts.size == .XL) env.filesPhase with
      | .error e => .error e
      | .ok filesCallResult =>
        let artifactsSpec : Option JsValue := filesCallResult.result.bind (·.artifacts)
        if !(optJsTruthy artifactsSpec) || filesCallResult.timeout then
          .ok (earlyExitView ts filesCallResult.timeout)
        else
          match tree, artifactsSpec with
          | some t, some a => mainPath env ts t a
          | _, _ => .ok (earlyExitView ts false)

/- ===================== Helper lemmas ===================== -/

theorem getScoreCap_nonneg (fl : Option String) : 0 ≤ getScoreCap fl := by
  cases fl with
  | none => norm_num [getScoreCap]
  | some l =>
    simp only [getScoreCap]
    split_ifs <;> norm_num

theorem foldl_penalty_shift (l : List FailureAnnotation) (init : ℚ) :
    l.foldl (fun acc a => acc + annotationPenalty a) init
      = init + l.foldl (fun acc a => acc + annotationPenalty a) 0 := by
  induction l generalizing init with
  | nil => simp
  | cons a t ih =>
    simp only [List.foldl_cons]
    rw [ih (init + annotationPenalty a), ih (0 + annotationPenalty a)]
    ring

theorem totalPenalty_cons (a : FailureAnnotation) (l : List FailureAnnotation) :
    totalPenalty (a :: l) = annotationPenalty a + totalPenalty l := by
  unfold totalPenalty
  simp only [List.foldl_cons]
  rw [foldl_penalty_shift]
  ring

theorem charsLeadWith_two_exclusive (s : List Char) (c₁ c₂ : Char) (h : c₁ ≠ c₂) :
    charsLeadWith ['L', c₁] s = true → charsLeadWith ['L', c₂] s = false := by
  intro h1
  cases s with
  | nil => simp [charsLeadWith] at h1
  | cons b t =>
    cases t with
    | nil => simp [charsLeadWith] at h1
    | cons b2 t2 =>
      simp only [charsLeadWith, Bool.and_eq_true, beq_iff_eq, and_true] at h1
      obtain ⟨hL, hc⟩ := h1
      have hne : (c₂ == b2) = false := by
        simp only [beq_eq_false_iff_ne, ne_eq]
        intro hc2
        exact h (hc.trans hc2.symm)
      simp [charsLeadWith, hne]

theorem strStartsWith_exclusive (s : String) (c₁ c₂ : Char) (h : c₁ ≠ c₂) :
    strStartsWith s (String.mk ['L', c₁]) = true →
    strStartsWith s (String.mk ['L', c₂]) = false :=
  charsLeadWith_two_exclusive s.data c₁ c₂ h

theorem annotationPenalty_cases (a : FailureAnnotation) :
    annotationPenalty a =
      15 * (if strStartsWith a.layer "L5" then (1 : ℚ) else 0)
      + 20 * (if strStartsWith a.layer "L4" then (1 : ℚ) else 0)
      + 5 * (if strStartsWith a.layer "L2" && a.severity == "error" then (1 : ℚ) else 0)
      + 2 * (if strStartsWith a.layer "L2" && a.severity == "warning" then (1 : ℚ) else 0) := by
  unfold annotationPenalty
  by_cases h5 : strStartsWith a.layer "L5" = true
  · have h4 := strStartsWith_exclusive a.layer '5' '4' (by decide) h5
    have h2 := strStartsWith_exclusive a.layer '5' '2' (by decide) h5
    simp [h5, h4, h2]
  · by_cases h4 : strStartsWith a.layer "L4" = true
    · have h2 := strStartsWith_exclusive a.layer '4' '2' (by decide) h4
      simp [h5, h4, h2]
    · by_cases h3 : strStartsWith a.layer "L3" = true
      · have h2 := strStartsWith_exclusive a.layer '3' '2' (by decide) h3
        simp [h5, h4, h3, h2]
      · by_cases h2 : strStartsWith a.layer "L2" = true
        · by_cases he : (a.severity == "error") = true
          · have hw : (a.severity == "warning") = false := by
              simp only [beq_iff_eq] at he
              simp [he]
            simp [h5, h4, h3, h2, he, hw]
          · by_cases hw : (a.severity == "warning") = true
            · simp [h5, h4, h3, h2, he, hw]
            · simp [h5, h4, h3, h2, he, hw]
        · simp [h5, h4, h3, h2]

/-- C5: in the Final Evaluator, the penalty subtracted from the weighted
score equals 15 per L5-layer annotation, plus 20 per L4-layer annotation,
plus 5 per L2-layer annotation of severity error, plus 2 per L2-layer
annotation of severity warning; L3-layer annotations (and L1 and L2 info
annotations) contribute nothing. -/
theorem evaluateFinal_penalty_formula (annotations : List FailureAnnotation) :
    totalPenalty annotations =
      15 * ((annotations.filter fun a => strStartsWith a.layer "L5").length : ℚ)
      + 20 * ((annotations.filter fun a => strStartsWith a.layer "L4").length : ℚ)
      + 5 * ((annotations.filter fun a =>
          strStartsWith a.layer "L2" && a.severity == "error").length : ℚ)
      + 2 * ((annotations.filter fun a =>
          strStartsWith a.layer "L2" && a.severity == "warning").length : ℚ) := by
  induction annotations with
  | nil => simp [totalPenalty]
  | cons a l ih =>
    rw [totalPenalty_cons, annotationPenalty_cases, ih]
    simp only [List.filter_cons]
    split_ifs <;> simp <;> ring

/-- C1: for every input to the Final Evaluator the returned total score is
an integer with 0 ≤ totalScore ≤ cap(dominant layer), where the cap is 30
for an L5 dominant layer, 50 for L4, 70 for L3, 85 for L2 and 100 with no
failure layer, and the cap chain is monotonically non-decreasing as the
dominant layer decreases in severity. -/
theorem evaluateFinal_total_within_cap (staticScore : ScoreBreakdown)
    (runtimeScore : Option ℚ) (metadata : FailureMetadata) :
    (0 ≤ (evaluateFinal staticScore runtimeScore metadata).totalScore
      ∧ (evaluateFinal staticScore runtimeScore metadata).totalScore
          ≤ getScoreCap (evaluateFinal staticScore runtimeScore metadata).failureLayer)
    ∧ (getScoreCap (some "L5/BrowserRuntime") = 30
      ∧ getScoreCap (some "L4/Parse") = 50
      ∧ getScoreCap (some "L3/StaticValidation") = 70
      ∧ getScoreCap (some "L2/CodeQuality") = 85
      ∧ getScoreCap none = 100)
    ∧ (getScoreCap (some "L5/BrowserRuntime") ≤ getScoreCap (some "L4/Parse")
      ∧ getScoreCap (some "L4/Parse") ≤ getScoreCap (some "L3/StaticValidation")
      ∧ getScoreCap (some "L3/StaticValidation") ≤ getScoreCap (some "L2/CodeQuality")
      ∧ getScoreCap (some "L2/CodeQuality") ≤ getScoreCap none) := by
  refine ⟨⟨?_, ?_⟩, ⟨by decide, by decide, by decide, by decide, by decide⟩,
    ⟨by decide, by decide, by decide, by decide⟩⟩
  · simp only [evaluateFinal]
    exact le_max_left 0 _
  · simp only [evaluateFinal]
    exact max_le (getScoreCap_nonneg _) (min_le_left _ _)

/-- C8: registry lookup throws for every identifier not present in the
registry (never degrading to a default), and for every registered
identifier it deterministically returns the registered definition with
identical fields on every call. -/
theorem getFailureDef_contract :
    (∀ ruleId : String, ruleId ∉ registryKeys →
        getFailureDef ruleId = .error ("[FailureRegistry] Unknown Rule ID: " ++ ruleId))
    ∧ (∀ p ∈ FAILURE_REGISTRY, getFailureDef p.1 = .ok p.2)
    ∧ (∀ ruleId d₁ d₂, getFailureDef ruleId = .ok d₁ → getFailureDef ruleId = .ok d₂ → d₁ = d₂)
    ∧ (∀ ruleId d, getFailureDef ruleId = .ok d → ruleId ∈ registryKeys) := by
  refine ⟨?_, ?_, ?_, ?_⟩
  · intro ruleId hni
    unfold getFailureDef
    have hnone : FAILURE_REGISTRY.find? (fun p => p.1 == ruleId) = none := by
      rw [List.find?_eq_none]
      intro x hx
      simp only [beq_iff_eq]
      intro hxe
      exact hni (hxe ▸ List.mem_map_of_mem _ hx)
    rw [hnone]
    rfl
  · intro p hp
    fin_cases hp <;> rfl
  · intro ruleId d₁ d₂ h₁ h₂
    rw [h₁] at h₂
    injection h₂
  · intro ruleId d h
    unfold getFailureDef at h
    cases hf : FAILURE_REGISTRY.find? (fun p => p.1 == ruleId) with
    | none => rw [hf] at h; simp at h
    | some p =>
      rw [hf] at h
      have hmem := List.mem_of_find?_eq_some hf
      have hprop := List.find?_some hf
      simp only [beq_iff_eq] at hprop
      exact hprop ▸ List.mem_map_of_mem _ hmem

/-- C8 witness: a concrete unknown id aborts with the exact error, and a
concrete registered id yields its registered definition. -/
theorem getFailureDef_contract_witness :
    ("bogus/id" ∉ registryKeys
      ∧ getFailureDef "bogus/id" = .error "[FailureRegistry] Unknown Rule ID: bogus/id")
    ∧ getFailureDef "runtime/crash" = .ok FD_RUNTIME_CRASH := by
  refine ⟨⟨by decide, ?_⟩, ?_⟩
  · exact getFailureDef_contract.1 "bogus/id" (by decide)
  · exact getFailureDef_contract.2.1 ("runtime/crash", FD_RUNTIME_CRASH) (by decide)

/-- C3 amended: once scratch-directory creation succeeds, the sandbox
runner resolves (never rejects) to exactly one result object carrying a
success flag and a log list, on every exit path including build failure,
missing entry, browser crash, and exceptions in the artifact write loop
(caught by the try block); a throw from scratch-directory creation itself
happens before the try, inside the Promise executor, and rejects the
promise. -/
theorem runInSandbox_resolves_after_scratch (env : SandboxEnv)
    (files : List (String × String)) (ts : TaskSpec) (manifest : Option SandboxManifest)
    (d : String) (hd : env.scratchDir = .ok d) :
    ∃ r : SandboxResult, runInSandbox env files ts manifest = .ok r := by
  unfold runInSandbox
  rw [hd]
  cases hm : sandboxMaterialize env files with
  | error e => exact ⟨_, rfl⟩
  | ok u =>
    unfold sandboxAsyncPhase
    dsimp only
    repeat' split
    all_goals exact ⟨_, rfl⟩

def c3Task : TaskSpec :=
  { id := "c3", size := .M, question := { treeRules := { requiredFiles := [] } },
    runtime := some { type := some "browser", entry := some "index.html" } }

def c3ScratchFailEnv : SandboxEnv := { scratchDir := .error "ENOSPC: tmp dir creation failed" }

/-- C3 counterexample: when scratch-directory creation throws, the promise
returned by the runner rejects with that fault instead of resolving to a
result object, because tmp.dirSync runs before the try block inside the
Promise executor. -/
theorem runInSandbox_rejects_on_scratch_throw :
    runInSandbox c3ScratchFailEnv [("index.html", "x")] c3Task none
      = .error "ENOSPC: tmp dir creation failed" := by rfl

def c3OkEnv : SandboxEnv := {}

/-- C3 witness: with a concrete environment whose scratch-directory
creation succeeds, the runner resolves to a result. -/
theorem runInSandbox_resolves_after_scratch_witness :
    ∃ r : SandboxResult,
      runInSandbox c3OkEnv [("index.html", "x")] c3Task none = .ok r :=
  runInSandbox_resolves_after_scratch c3OkEnv [("index.html", "x")] c3Task none
    "/tmp/scratch" rfl

/-- C6: the enabled connectivity sub-checks are exactly check 1 (file
reference) for XS, checks 1-2 for S, 1-3 for M and 1-4 for L and XL, and
the static evaluator's connectivity score equals the arithmetic mean of
the enabled sub-check values (a pure function of its inputs, hence
deterministic on identical inputs). -/
theorem evaluateStatic_connectivity_gating (env : StaticEnv)
    (files : List (String × String)) (ts : TaskSpec) :
    ((evaluateStatic env files ts).connectivity
      = (enabledConnectivity ts.size (evaluateFileReference files ts).1
          (evaluateScriptBinding files).1
          (evaluateApiSchemaLinkage env.jsonParse files).1
          (evaluateRouteConsistency env.jsonParse files).1).sum
        / ((enabledConnectivity ts.size (evaluateFileReference files ts).1
          (evaluateScriptBinding files).1
          (evaluateApiSchemaLinkage env.jsonParse files).1
          (evaluateRouteConsistency env.jsonParse files).1).length : ℚ))
    ∧ (∀ fr sb api rc : ℚ,
        enabledConnectivity .XS fr sb api rc = [fr]
        ∧ enabledConnectivity .S fr sb api rc = [fr, sb]
        ∧ enabledConnectivity .M fr sb api rc = [fr, sb, api]
        ∧ enabledConnectivity .L fr sb api rc = [fr, sb, api, rc]
        ∧ enabledConnectivity .XL fr sb api rc = [fr, sb, api, rc]) := by
  constructor
  · cases hs : ts.size <;>
      simp [evaluateStatic, enabledConnectivity, hs]
  · intro fr sb api rc
    refine ⟨?_, ?_, ?_, ?_, ?_⟩ <;> simp [enabledConnectivity]

theorem classify_runtimeErrors_eq_filter (errs : List BrowserError) :
    (classifyBrowserErrors errs).1 = errs.filter isFatalBrowserError := by
  induction errs with
  | nil => rfl
  | cons e rest ih =>
    unfold classifyBrowserErrors
    dsimp only
    by_cases h1 : (e.type == "pageerror") = true
    · simp [List.filter_cons, isFatalBrowserError, h1, ih]
    · by_cases h2 : (e.type == "network") = true
      · by_cases h3 : ((match e.url with
            | some u => strEndsWith u ".js" || strEndsWith u ".html"
            | none => false)
            || strIncludes e.message ".js" || strIncludes e.message ".html") = true
        · simp [List.filter_cons, isFatalBrowserError, h1, h2, h3, ih]
        · simp [List.filter_cons, isFatalBrowserError, h1, h2, h3, ih]
      · by_cases h4 : (e.type == "console.error") = true
        · simp [List.filter_cons, isFatalBrowserError, h1, h2, h4, ih]
        · simp [List.filter_cons, isFatalBrowserError, h1, h2, h4, ih]

/-- C4: the Runtime Evaluator scores 0 exactly when the sandbox reported
overall failure or at least one fatal error was recorded (a page error, a
console error, or a network failure classified critical on a .js/.html
resource), scores 1 otherwise, and a manifest entry point absent from the
mounted-file list yields an L5 manifest-mismatch annotation without by
itself zeroing the score. -/
theorem evaluateRuntime_zero_iff_fatal (sr : SandboxResult) (ts : TaskSpec) :
    ((evaluateRuntime sr ts).score = 0
      ↔ (sr.success = false
          ∨ ((sr.browserErrors.getD []).filter isFatalBrowserError) ≠ []))
    ∧ ((evaluateRuntime sr ts).score = 0 ∨ (evaluateRuntime sr ts).score = 1)
    ∧ (∀ m : SandboxManifest, sr.manifest = some m → ¬ m.entry = "" →
        m.filesMounted.contains m.entry = false →
        ∃ a ∈ (evaluateRuntime sr ts).failureAnnotations,
          a.ruleId = "runtime/manifest-mismatch" ∧ a.layer = "L5/BrowserRuntime"
            ∧ a.severity = "error") := by
  have hcl := classify_runtimeErrors_eq_filter (sr.browserErrors.getD [])
  refine ⟨?_, ?_, ?_⟩
  · cases hsucc : sr.success with
    | false => simp [evaluateRuntime, hsucc]
    | true =>
      simp only [evaluateRuntime, hcl, hsucc, Bool.not_true]
      by_cases hf : ((sr.browserErrors.getD []).filter isFatalBrowserError) = []
      · simp [hf]
      · have hprod : 0 < ((sr.browserErrors.getD []).filter isFatalBrowserError).length :=
          List.length_pos.mpr hf
        simp [hf, hprod]
  · simp only [evaluateRuntime]
    split_ifs <;> simp
  · intro m hm hne hcont
    have hbe : (m.entry == "") = false := by
      simp only [beq_eq_false_iff_ne, ne_eq]
      exact hne
    refine ⟨annotOfDef FD_RUNTIME_MANIFEST_MISMATCH
      ("Runtime entry point " ++ m.entry ++ " not found in mounted files"), ?_, rfl, rfl, rfl⟩
    have hcond : (!(m.entry == "") && !(m.filesMounted.contains m.entry)) = true := by
      rw [hbe, hcont]
      decide
    simp only [evaluateRuntime, hm, hcond]
    split_ifs <;> simp [annotOfDef]

def c4Manifest : SandboxManifest := { entry := "index.js", filesMounted := ["index.html"] }

def c4Sandbox : SandboxResult :=
  { success := true, manifest := some c4Manifest,
    browserErrors := some [], browserLogs := some [] }

def c4Task : TaskSpec := { id := "c4", size := .M, question := { treeRules := { requiredFiles := [] } } }

/-- C4 witness: on a concrete sandbox result whose manifest declares an
entry absent from the mounted files but whose run was otherwise clean, the
score is 1 while the manifest-mismatch L5 annotation is present. -/
theorem evaluateRuntime_zero_iff_fatal_witness :
    (evaluateRuntime c4Sandbox c4Task).score = 1
    ∧ ∃ a ∈ (evaluateRuntime c4Sandbox c4Task).failureAnnotations,
        a.ruleId = "runtime/manifest-mismatch" ∧ a.layer = "L5/BrowserRuntime"
          ∧ a.severity = "error" := by
  constructor
  · decide
  · exact (evaluateRuntime_zero_iff_fatal c4Sandbox c4Task).2.2 c4Manifest rfl
      (by decide) (by decide)

/-- C7 amended: provided at least one markup file exists, the file-reference
sub-check returns 1 when the markup mentions every required non-markup file
(vacuously 1 when there are none); returns 0.5 with an error annotation
when a nonempty proper subset is mentioned; returns 0.5 with a warning
annotation when none are mentioned but a generic link/script tag is
present; and returns 0 with an error annotation when none are mentioned and
no generic tag is present.  With no markup files it returns 0 with an error
annotation regardless of the required-file list. -/
theorem evaluateFileReference_characterization (files : List (String × String))
    (ts : TaskSpec) :
    (frHtmlFiles files = [] →
      evaluateFileReference files ts
        = (0, [annotOfDef FD_CONNECTIVITY_BROKEN_LINK "No HTML files found to reference content"]))
    ∧ (frHtmlFiles files ≠ [] → frTargets ts = [] →
      evaluateFileReference files ts = (1, []))
    ∧ (frHtmlFiles files ≠ [] → frFoundCount files ts = (frTargets ts).length →
      evaluateFileReference files ts = (1, []))
    ∧ (frHtmlFiles files ≠ [] → 0 < frFoundCount files ts →
      frFoundCount files ts < (frTargets ts).length →
      evaluateFileReference files ts
        = (1/2, [annotOfDef FD_CONNECTIVITY_BROKEN_LINK
            ("Missing references to required files: " ++ strJoin ", " (frMissing files ts))]))
    ∧ (frHtmlFiles files ≠ [] → frTargets ts ≠ [] → frFoundCount files ts = 0 →
      frGeneric files = true →
      evaluateFileReference files ts
        = (1/2, [{ annotOfDef FD_CONNECTIVITY_BROKEN_LINK
            ("No explicit references to required files found, but generic links exist. Missing: "
              ++ strJoin ", " (frMissing files ts)) with severity := "warning" }]))
    ∧ (frHtmlFiles files ≠ [] → frTargets ts ≠ [] → frFoundCount files ts = 0 →
      frGeneric files = false →
      evaluateFileReference files ts
        = (0, [annotOfDef FD_CONNECTIVITY_BROKEN_LINK
            ("Missing references to required files: " ++ strJoin ", " (frMissing files ts))])) := by
  refine ⟨?_, ?_, ?_, ?_, ?_, ?_⟩
  · intro h1
    simp [evaluateFileReference, h1]
  · intro h1 h2
    simp [evaluateFileReference, h1, h2]
  · intro h1 h2
    by_cases h3 : frTargets ts = []
    · simp [evaluateFileReference, h1, h3]
    · simp [evaluateFileReference, h1, h2, h3]
  · intro h1 h2 h3
    have htne : frTargets ts ≠ [] := by
      intro hcon
      rw [hcon] at h3
      simp at h3
    have hne : (frFoundCount files ts == (frTargets ts).length) = false := by
      simp only [beq_eq_false_iff_ne, ne_eq]
      omega
    simp [evaluateFileReference, h1, htne, hne, h2]
  · intro h1 h2 h3 h4
    have hlen : 0 < (frTargets ts).length := List.length_pos.mpr h2
    have hne : (frFoundCount files ts == (frTargets ts).length) = false := by
      simp only [beq_eq_false_iff_ne, ne_eq]
      omega
    simp [evaluateFileReference, h1, h2, hne, h3, h4]
    omega
  · intro h1 h2 h3 h4
    have hlen : 0 < (frTargets ts).length := List.length_pos.mpr h2
    have hne : (frFoundCount files ts == (frTargets ts).length) = false := by
      simp only [beq_eq_false_iff_ne, ne_eq]
      omega
    simp [evaluateFileReference, h1, h2, hne, h3, h4]
    omega

def c7Files : List (String × String) := [("index.html", "<script>")]

def c7Task : TaskSpec :=
  { id := "c7", size := .XS, question := { treeRules := { requiredFiles := ["main.js"] } } }

def c7EmptyTask : TaskSpec :=
  { id := "c7b", size := .XS, question := { treeRules := { requiredFiles := [] } } }

/-- C7 counterexample: on a concrete input where no required non-markup
file is mentioned but a generic script tag is present, the sub-check
returns 0.5 with a warning annotation, not 0 with an error annotation as
the claim states. -/
theorem evaluateFileReference_none_mentioned_not_zero :
    frFoundCount c7Files c7Task = 0
    ∧ frGeneric c7Files = true
    ∧ (evaluateFileReference c7Files c7Task).1 = 1/2
    ∧ (evaluateFileReference c7Files c7Task).2.all (fun a => a.severity == "warning") = true := by
  refine ⟨by decide, by decide, by rfl, by decide⟩

/-- C7 witness: the amended characterization applied at concrete inputs:
the vacuous pass with no targets, and the 0.5-with-warning branch. -/
theorem evaluateFileReference_characterization_witness :
    evaluateFileReference c7Files c7EmptyTask = (1, [])
    ∧ evaluateFileReference c7Files c7Task
        = (1/2, [{ annotOfDef FD_CONNECTIVITY_BROKEN_LINK
            ("No explicit references to required files found, but generic links exist. Missing: "
              ++ strJoin ", " (frMissing c7Files c7Task)) with severity := "warning" }]) := by
  constructor
  · exact (evaluateFileReference_characterization c7Files c7EmptyTask).2.1
      (by decide) (by decide)
  · exact (evaluateFileReference_characterization c7Files c7Task).2.2.2.2.1
      (by decide) (by decide) (by decide) (by decide)

/-- C9 amended: the Parsing Gate rejects wholesale (returns null) any bundle
failing shape validation, in particular any tree whose file list contains an
entry with an empty or whitespace-only path; it performs no absolute-path or
parent-traversal rejection. -/
theorem parseModelOutput_rejects_malformed (tree artifacts : JsValue) :
    (validateTreeSpec tree = false → parseModelOutput tree artifacts = none)
    ∧ (validateArtifactsSpec artifacts = false → parseModelOutput tree artifacts = none)
    ∧ (∀ fs, jsGetField tree "files" = some (.jarr fs) →
        (∃ f ∈ fs, ∃ p, jsGetField f "path" = some (.jstr p) ∧ (strTrim p).length = 0) →
        parseModelOutput tree artifacts = none) := by
  refine ⟨?_, ?_, ?_⟩
  · intro h
    simp [parseModelOutput, h]
  · intro h
    by_cases ht : validateTreeSpec tree = true
    · simp [parseModelOutput, h, ht]
    · simp [parseModelOutput, ht]
  · intro fs hf hex
    have hv : validateTreeSpec tree = false := by
      by_cases hguard : (jsTruthy tree && jsTypeofObject tree) = true
      · obtain ⟨f, hmem, p, hp, hlen⟩ := hex
        have hentry : validTreeEntry f = false := by
          unfold validTreeEntry
          simp [hp, hlen]
        simp only [validateTreeSpec, hguard, Bool.not_true, if_neg, hf]
        simp only [Bool.false_eq_true, if_false]
        exact List.all_eq_false.mpr ⟨f, hmem, by simp [hentry]⟩
      · simp [validateTreeSpec, hguard]
    simp [parseModelOutput, hv]

def c9Tree : JsValue :=
  .jobj [("files", .jarr [
    .jobj [("path", .jstr "../evil"), ("type", .jstr "file")],
    .jobj [("path", .jstr "/abs.js"), ("type", .jstr "file")]])]

def c9Artifacts : JsValue :=
  .jobj [("files", .jobj [("../evil", .jstr "x"), ("/abs.js", .jstr "y")])]

/-- C9 counterexample: a bundle whose tree paths contain a parent-traversal
segment and an absolute path passes the gate with a non-null combined
output, contradicting the claimed wholesale rejection. -/
theorem parseModelOutput_accepts_traversal_paths :
    strIncludes "../evil" ".." = true
    ∧ strStartsWith "/abs.js" "/" = true
    ∧ (parseModelOutput c9Tree c9Artifacts).isSome = true := by
  refine ⟨by decide, by decide, by rfl⟩

def c9EmptyPathTree : JsValue := .jobj [("files", .jarr [.jobj [("path", .jstr "  ")]])]

/-- C9 witness: the gate rejects a concrete tree containing a
whitespace-only path. -/
theorem parseModelOutput_rejects_malformed_witness :
    parseModelOutput c9EmptyPathTree c9Artifacts = none :=
  (parseModelOutput_rejects_malformed c9EmptyPathTree c9Artifacts).2.2 _ rfl
    ⟨.jobj [("path", .jstr "  ")], List.mem_singleton.mpr rfl, "  ", rfl, by decide⟩

/- ===================== Orchestrator lemmas ===================== -/

theorem mainPath_ok_shape (env : RunEnv) (ts : TaskSpec) (t a : JsValue) (v : ExecView)
    (h : mainPath env ts t a = .ok v) (hinv : v.sandboxInvoked = true) :
    (ts.size = .M ∨ ts.size = .L ∨ ts.size = .XL) ∧ v.artifactStatusValid = true := by
  unfold mainPath at h
  dsimp only at h
  split at h
  · rename_i hcond
    split at h
    · exact absurd h (by simp)
    · simp only [Except.ok.injEq] at h
      exact ⟨hcond.1, by rw [← h]; exact hcond.2⟩
  · simp only [Except.ok.injEq] at h
    rw [← h] at hinv
    exact absurd hinv (by simp)

theorem runTask_ok_cases (env : RunEnv) (ts : TaskSpec) (v : ExecView)
    (h : runTask env ts = .ok v) :
    (∃ b, v = earlyExitView ts b) ∨ ∃ t a, mainPath env ts t a = .ok v := by
  unfold runTask at h
  rcases hct : callWithTimeout (ts.size == .XL) env.treePhase with e | tcr
  · rw [hct] at h
    exact absurd h (by simp)
  · rw [hct] at h
    dsimp only at h
    split at h
    · left
      exact ⟨tcr.timeout, (Except.ok.injEq .. ▸ h).symm⟩
    · rcases hcf : callWithTimeout (ts.size == .XL) env.filesPhase with e2 | fcr
      · rw [hcf] at h
        exact absurd h (by simp)
      · rw [hcf] at h
        dsimp only at h
        split at h
        · left
          exact ⟨fcr.timeout, (Except.ok.injEq .. ▸ h).symm⟩
        · rcases htv : tcr.result.bind (fun o => o.tree) with _ | t <;> rw [htv] at h
          · left
            exact ⟨false, (Except.ok.injEq .. ▸ h).symm⟩
          · rcases hav : fcr.result.bind (fun o => o.artifacts) with _ | a <;> rw [hav] at h
            · left
              exact ⟨false, (Except.ok.injEq .. ▸ h).symm⟩
            · right
              exact ⟨t, a, h⟩

/-- C2 amended: runTask recovers a collaborator call that settles without a
tree or without artifacts, and an XL deadline-race timeout, into a complete
terminal result with zero completeness; but a collaborator promise that
rejects during the tree or files phase propagates the fault out of runTask
to its caller. -/
theorem runTask_fault_policy :
    (∀ (env : RunEnv) (ts : TaskSpec) (e : String), ¬ ts.size = .XL →
        env.treePhase.outcome = .error e → runTask env ts = .error e)
    ∧ (∀ (env : RunEnv) (ts : TaskSpec) (e : String) (out : ModelOut), ¬ ts.size = .XL →
        env.treePhase.outcome = .ok out → optJsTruthy out.tree = true →
        env.filesPhase.outcome = .error e → runTask env ts = .error e)
    ∧ (∀ (env : RunEnv) (ts : TaskSpec) (out : ModelOut), ¬ ts.size = .XL →
        env.treePhase.outcome = .ok out → optJsTruthy out.tree = false →
        runTask env ts = .ok (earlyExitView ts false)
          ∧ (earlyExitView ts false).staticScore.completeness = 0
          ∧ (earlyExitView ts false).runtimeScore = earlyRuntimeScore ts)
    ∧ (∀ (env : RunEnv) (ts : TaskSpec), ts.size = .XL →
        env.treePhase.deadlinePassed = false → env.treePhase.deadlineWins = true →
        runTask env ts = .ok (earlyExitView ts true)
          ∧ (earlyExitView ts true).infrastructureTimeout = true
          ∧ (earlyExitView ts true).staticScore.completeness = 0) := by
  refine ⟨?_, ?_, ?_, ?_⟩
  · intro env ts e hxl ho
    have hb : (ts.size == Difficulty.XL) = false := by
      simp only [beq_eq_false_iff_ne, ne_eq]
      exact hxl
    have hc : callWithTimeout (ts.size == .XL) env.treePhase = .error e := by
      simp [callWithTimeout, hb, ho]
    simp [runTask, hc]
  · intro env ts e out hxl ho ht hf
    have hb : (ts.size == Difficulty.XL) = false := by
      simp only [beq_eq_false_iff_ne, ne_eq]
      exact hxl
    have hc1 : callWithTimeout (ts.size == .XL) env.treePhase
        = .ok { result := some out, timeout := false } := by
      simp [callWithTimeout, hb, ho]
    have hc2 : callWithTimeout (ts.size == .XL) env.filesPhase = .error e := by
      simp [callWithTimeout, hb, hf]
    simp [runTask, hc1, hc2, ht]
  · intro env ts out hxl ho ht
    have hb : (ts.size == Difficulty.XL) = false := by
      simp only [beq_eq_false_iff_ne, ne_eq]
      exact hxl
    have hc1 : callWithTimeout (ts.size == .XL) env.treePhase
        = .ok { result := some out, timeout := false } := by
      simp [callWithTimeout, hb, ho]
    exact ⟨by simp [runTask, hc1, ht], rfl, rfl⟩
  · intro env ts hxl hdp hdw
    have hb : (ts.size == Difficulty.XL) = true := by
      simp only [beq_iff_eq]
      exact hxl
    have hc1 : callWithTimeout (ts.size == .XL) env.treePhase
        = .ok { result := none, timeout := true } := by
      simp [callWithTimeout, hb, hdp, hdw]
    exact ⟨by simp [runTask, hc1, optJsTruthy], rfl, rfl⟩

def c2Task : TaskSpec := { id := "c2", size := .S, question := { treeRules := { requiredFiles := [] } } }

def c2RejectEnv : RunEnv :=
  { treePhase := { outcome := .error "model threw" }, filesPhase := { outcome := .ok {} },
    staticEnv := { jsonParse := fun _ => none }, sandboxEnv := {} }

def c2MissEnv : RunEnv :=
  { treePhase := { outcome := .ok {} }, filesPhase := { outcome := .ok {} },
    staticEnv := { jsonParse := fun _ => none }, sandboxEnv := {} }

/-- C2 counterexample: with a collaborator whose tree-phase promise rejects,
runTask rejects with the same fault instead of settling with a terminal
result. -/
theorem runTask_rejects_on_collaborator_throw :
    runTask c2RejectEnv c2Task = .error "model threw" := by rfl

/-- C2 witness: a collaborator that settles without a tree yields the
recovered zero-completeness terminal result. -/
theorem runTask_fault_policy_witness :
    runTask c2MissEnv c2Task = .ok (earlyExitView c2Task false)
      ∧ (earlyExitView c2Task false).staticScore.completeness = 0
      ∧ (earlyExitView c2Task false).runtimeScore = earlyRuntimeScore c2Task :=
  runTask_fault_policy.2.2.1 c2MissEnv c2Task {} (by decide) rfl (by decide)

/-- C10 amended: the sandbox runner and runtime evaluator are invoked only
for tasks of tiers M, L or XL whose bundle passed the parsing gate; for
every XS or S task whose generation phases both produced outputs, the
runtime score passed to the Final Evaluator is null and the runtime-skipped
0.6/0.3/0.1 weighting applies; on a generation-failure early exit the
runtime score is instead 0 when the task declares a runtime entry or build
command. -/
theorem runTask_runtime_gating :
    (∀ (env : RunEnv) (ts : TaskSpec) (v : ExecView), runTask env ts = .ok v →
        v.sandboxInvoked = true →
        (ts.size = .M ∨ ts.size = .L ∨ ts.size = .XL) ∧ v.artifactStatusValid = true)
    ∧ (∀ (env : RunEnv) (ts : TaskSpec) (out₁ out₂ : ModelOut),
        (ts.size = .XS ∨ ts.size = .S) →
        env.treePhase.outcome = .ok out₁ → optJsTruthy out₁.tree = true →
        env.filesPhase.outcome = .ok out₂ → optJsTruthy out₂.artifacts = true →
        ∃ v, runTask env ts = .ok v ∧ v.runtimeScore = none ∧ v.sandboxInvoked = false)
    ∧ (∀ c s sv : ℚ, baseScore01 c s sv none = 6/10 * c + 3/10 * s + 1/10 * sv) := by
  refine ⟨?_, ?_, fun c s sv => rfl⟩
  · intro env ts v h hinv
    rcases runTask_ok_cases env ts v h with ⟨b, hb⟩ | ⟨t, a, hmp⟩
    · rw [hb] at hinv
      exact absurd hinv (by simp [earlyExitView])
    · exact mainPath_ok_shape env ts t a v hmp hinv
  · intro env ts out₁ out₂ hsize h1 ht1 h2 ht2
    have hb : (ts.size == Difficulty.XL) = false := by
      rcases hsize with h | h <;> simp [h]
    have hc1 : callWithTimeout (ts.size == .XL) env.treePhase
        = .ok { result := some out₁, timeout := false } := by
      simp [callWithTimeout, hb, h1]
    have hc2 : callWithTimeout (ts.size == .XL) env.filesPhase
        = .ok { result := some out₂, timeout := false } := by
      simp [callWithTimeout, hb, h2]
    rcases htv : out₁.tree with _ | t
    · rw [htv] at ht1
      exact absurd ht1 (by simp [optJsTruthy])
    rcases hav : out₂.artifacts with _ | a
    · rw [hav] at ht2
      exact absurd ht2 (by simp [optJsTruthy])
    rw [htv] at ht1
    rw [hav] at ht2
    have hrt : runTask env ts = mainPath env ts t a := by
      simp [runTask, hc1, hc2, htv, hav, ht1, ht2]
    have hnr : ¬((ts.size = .M ∨ ts.size = .L ∨ ts.size = .XL)
        ∧ (parseModelOutput t a).isSome = true) := by
      rcases hsize with h | h <;> simp [h]
    have hmp : ∃ v, mainPath env ts t a = .ok v
        ∧ v.runtimeScore = none ∧ v.sandboxInvoked = false := by
      unfold mainPath
      dsimp only
      rw [if_neg hnr]
      exact ⟨_, rfl, rfl, rfl⟩
    obtain ⟨v, hv, hv1, hv2⟩ := hmp
    exact ⟨v, hrt ▸ hv, hv1, hv2⟩

def c10Task : TaskSpec :=
  { id := "c10", size := .XS, question := { treeRules := { requiredFiles := [] } },
    runtime := some { type := some "browser", entry := some "index.html" } }

def c10Env : RunEnv :=
  { treePhase := { outcome := .ok {} }, filesPhase := { outcome := .ok {} },
    staticEnv := { jsonParse := fun _ => none }, sandboxEnv := {} }

/-- C10 counterexample: on a generation-failure early exit, an XS task with
a declared runtime entry is passed runtime score 0 (not null) to the Final
Evaluator. -/
theorem runTask_early_exit_runtime_zero :
    Except.map (fun v => v.runtimeScore) (runTask c10Env c10Task) = .ok (some 0) := by rfl

def c10GoodTree : JsValue := .jobj [("files", .jarr [.jobj [("path", .jstr "index.html")]])]

def c10GoodArt : JsValue :=
  .jobj [("files", .jobj [("index.html", .jstr "<!DOCTYPE html <html <body")])]

def c10GoodEnv : RunEnv :=
  { treePhase := { outcome := .ok { tree := some c10GoodTree } },
    filesPhase := { outcome := .ok { artifacts := some c10GoodArt } },
    staticEnv := { jsonParse := fun _ => none }, sandboxEnv := {} }

/-- C10 witness: a concrete XS task whose generation phases both produce
outputs reaches the evaluator with a null runtime score and no sandbox
invocation. -/
theorem runTask_runtime_gating_witness :
    ∃ v, runTask c10GoodEnv c10Task = .ok v
      ∧ v.runtimeScore = none ∧ v.sandboxInvoked = false :=
  runTask_runtime_gating.2.1 c10GoodEnv c10Task _ _ (Or.inl rfl) rfl (by decide) rfl (by decide)

end Forge
